import Mathlib

/-!
A shallow embedding of `lib/connect-db2.js` (the `connect-db2` express session
store).  The store wraps a DB2 connection and maps session CRUD operations onto
parameterized SQL statements against a single sessions table.

Modelling conventions:
* The sessions table is a list of `(session_id, row)` pairs; the SQL statements
  issued by the store are interpreted by the usual relational semantics
  (lookup, filter, map, append) and are also recorded verbatim, with their
  parameters, in a trace so that theorems can speak about which SQL a call
  issues.
* `JSON.stringify` / `JSON.parse` belong to the JavaScript platform, not to
  this repository, so they are a parameter (`Codec`) of the operations that
  call them; both may fail, as in JavaScript.
* `Date.now()` is passed in as the `now` parameter (milliseconds), and the
  platform's string-to-date parsing as a `dateParse` parameter.
* Driver-level query failures are external nondeterminism; the model gives the
  driver's success-path semantics.  A failed `assert` in the source throws
  synchronously; the model returns `CbResult.assertFailed` for it, distinct
  from an error passed to the callback (`CbResult.err`).
-/

/-- One day in seconds (the source's `oneDay`). -/
def oneDay : Int := 86400

/-- The `schema.columnNames` configuration object. -/
structure ColumnNames where
  session_id : String
  expires : String
  data : String
deriving DecidableEq, Repr

/-- The `schema` configuration object. -/
structure Schema where
  tableName : String
  columnNames : ColumnNames
deriving DecidableEq, Repr

/-- Fully merged store options (the constructor's `this.options`). -/
structure Options where
  expiration : Int
  schema : Schema
  allowDrop : Bool
deriving DecidableEq, Repr

/-- The source's `defaultOptions` object. -/
def defaultOptions : Options :=
  { expiration := oneDay * 30
  , schema :=
      { tableName := "sessions"
      , columnNames := { session_id := "session_id", expires := "expires", data := "data" } }
  , allowDrop := false }

/-- User-supplied column names; `none` models a property that is absent or
undefined in the options object the caller passes to the constructor. -/
structure UserColumnNames where
  session_id : Option String := none
  expires : Option String := none
  data : Option String := none
deriving DecidableEq, Repr

/-- User-supplied `schema` sub-object. -/
structure UserSchema where
  tableName : Option String := none
  columnNames : Option UserColumnNames := none
deriving DecidableEq, Repr

/-- User-supplied options, restricted to the fields the store reads. -/
structure UserOptions where
  expiration : Option Int := none
  schema : Option UserSchema := none
  allowDrop : Option Bool := none
deriving DecidableEq, Repr

/-- Deep merge of the user options over `defaultOptions`, as performed by
`extend(true, ..., defaultOptions, options or empty)` in the constructor; the
`extend` module skips undefined properties, which `Option.getD` mirrors. -/
def mergeOptions (u : UserOptions) : Options :=
  let mergedSchema : Schema :=
    match u.schema with
    | none => defaultOptions.schema
    | some s =>
        let mergedCols : ColumnNames :=
          match s.columnNames with
          | none => defaultOptions.schema.columnNames
          | some c =>
              { session_id := c.session_id.getD defaultOptions.schema.columnNames.session_id
              , expires := c.expires.getD defaultOptions.schema.columnNames.expires
              , data := c.data.getD defaultOptions.schema.columnNames.data }
        { tableName := s.tableName.getD defaultOptions.schema.tableName
        , columnNames := mergedCols }
  { expiration := u.expiration.getD defaultOptions.expiration
  , schema := mergedSchema
  , allowDrop := u.allowDrop.getD defaultOptions.allowDrop }

/-- A JavaScript value that can sit in a cookie expiry field: a number of
milliseconds, a string, a `Date` object carrying a millisecond timestamp, or
`null`. -/
inductive ExpVal where
  | num (n : Int)
  | str (s : String)
  | date (ms : Int)
  | jsNull
deriving DecidableEq, Repr

/-- JavaScript truthiness of an `ExpVal`: `0` and the empty string and `null`
are falsy; every object, in particular every `Date`, is truthy. -/
def ExpVal.truthy : ExpVal → Bool
  | .num n => n != 0
  | .str s => s != ""
  | .date _ => true
  | .jsNull => false

/-- Truthiness of a possibly absent field (reading an absent property yields
undefined, which is falsy). -/
def optTruthy (v : Option ExpVal) : Bool :=
  match v with
  | none => false
  | some w => w.truthy

/-- Millisecond timestamp obtained from a value after the source's
`new Date(expires)` coercion: a `Date` keeps its timestamp, a number is that
many milliseconds, a string goes through the platform's date parsing
(`dateParse`), and `null` coerces to the epoch. -/
def ExpVal.toMillis (dateParse : String → Int) : ExpVal → Int
  | .num n => n
  | .str s => dateParse s
  | .date ms => ms
  | .jsNull => 0

/-- The cookie sub-object of an express session, restricted to the two fields
`getExpires` reads.  `_expires` is the private variant of `expires`. -/
structure Cookie where
  expires : Option ExpVal := none
  _expires : Option ExpVal := none
deriving DecidableEq, Repr

/-- An express session object: the optional cookie plus the rest of the
payload, modelled as opaque key-value data. -/
structure Session where
  cookie : Option Cookie := none
  payload : List (String × String) := []
deriving DecidableEq, Repr

/-- JavaScript `Math.round(ms / 1000)` for an integral number of milliseconds:
the floor of `ms / 1000 + 1 / 2`. -/
def mathRoundDiv1000 (ms : Int) : Int := Int.fdiv (ms + 500) 1000

/-- The source's `getExpires(sess, expiration)`: take `sess.cookie.expires` if
truthy, else `sess.cookie._expires` if truthy, else fall back to
`Date.now() + expiration`; coerce to a date and round to whole seconds. -/
def getExpires (dateParse : String → Int) (sess : Session) (now : Int) (expiration : Int) : Int :=
  let hint : Option ExpVal :=
    match sess.cookie with
    | some c =>
        if optTruthy c.expires then c.expires
        else if optTruthy c._expires then c._expires
        else none
    | none => none
  let ms : Int :=
    match hint with
    | some v => v.toMillis dateParse
    | none => now + expiration
  mathRoundDiv1000 ms

/-- Model of the platform's JSON global, restricted to session objects: both
`JSON.stringify` and `JSON.parse` may throw. -/
structure Codec where
  stringify : Session → Except String String
  parse : String → Except String Session

/-- One row of the sessions table, minus its key. -/
structure Row where
  expires : Int
  data : String
deriving DecidableEq, Repr

/-- The sessions table: `(session_id, row)` pairs. -/
abbrev Table := List (String × Row)

/-- Relational semantics of `SELECT ... WHERE session_id = ?` followed by
taking `rows[0]`: the first row with the given key. -/
def findRow (t : Table) (sid : String) : Option Row :=
  (t.find? (fun p => p.fst == sid)).map Prod.snd

/-- Relational semantics of `SELECT COUNT(*) ... WHERE session_id = ?`. -/
def countById (t : Table) (sid : String) : Nat :=
  (t.filter (fun p => p.fst == sid)).length

/-- Relational semantics of `UPDATE ... SET expires = ?, data = ? WHERE
session_id = ?`. -/
def updateRow (t : Table) (sid : String) (e : Int) (d : String) : Table :=
  t.map (fun p => if p.fst == sid then (p.fst, { expires := e, data := d }) else p)

/-- Relational semantics of `INSERT INTO ... VALUES (?, ?, ?)`. -/
def insertRow (t : Table) (sid : String) (e : Int) (d : String) : Table :=
  t ++ [(sid, { expires := e, data := d })]

/-- Relational semantics of `UPDATE ... SET expires = ? WHERE session_id = ?`
(the statement `touch` issues): only the expires column changes. -/
def updateExpiresCol (t : Table) (sid : String) (e : Int) : Table :=
  t.map (fun p => if p.fst == sid then (p.fst, { expires := e, data := p.snd.data }) else p)

/-- Relational semantics of `DELETE FROM ... WHERE session_id = ?`. -/
def deleteById (t : Table) (sid : String) : Table :=
  t.filter (fun p => !(p.fst == sid))

/-- A parameter bound to a `?` placeholder. -/
inductive SqlParam where
  | s (v : String)
  | i (v : Int)
deriving DecidableEq, Repr

/-- A statement as handed to `client.query`: SQL text plus parameters. -/
abbrev Stmt := String × List SqlParam

/-- The `"%s"` quoting used in every `util.format` SQL template. -/
def quoteId (s : String) : String := "\"" ++ s ++ "\""

/-- SQL text built by `get`. -/
def getSqlText (o : Options) : String :=
  "SELECT " ++ quoteId o.schema.columnNames.data ++ " AS \"data\" FROM " ++
    quoteId o.schema.tableName ++ " WHERE " ++ quoteId o.schema.columnNames.session_id ++ " = ?"

/-- SQL text of the existence-count query in `set`. -/
def countByIdSqlText (o : Options) : String :=
  "SELECT COUNT(*) AS \"length\" FROM " ++ quoteId o.schema.tableName ++
    " WHERE " ++ quoteId o.schema.columnNames.session_id ++ " = ?"

/-- SQL text of the update branch of `set`. -/
def setUpdateSqlText (o : Options) : String :=
  "UPDATE " ++ quoteId o.schema.tableName ++ " SET " ++ quoteId o.schema.columnNames.expires ++
    " = ?, " ++ quoteId o.schema.columnNames.data ++ " = ? WHERE " ++
    quoteId o.schema.columnNames.session_id ++ " = ?"

/-- SQL text of the insert branch of `set`. -/
def setInsertSqlText (o : Options) : String :=
  "INSERT INTO " ++ quoteId o.schema.tableName ++ " (" ++
    quoteId o.schema.columnNames.session_id ++ ", " ++ quoteId o.schema.columnNames.expires ++
    ", " ++ quoteId o.schema.columnNames.data ++ ") VALUES (?, ?, ?)"

/-- SQL text built by `destroy`. -/
def destroySqlText (o : Options) : String :=
  "DELETE FROM " ++ quoteId o.schema.tableName ++ " WHERE " ++
    quoteId o.schema.columnNames.session_id ++ " = ?"

/-- SQL text built by `touch`. -/
def touchSqlText (o : Options) : String :=
  "UPDATE " ++ quoteId o.schema.tableName ++ " SET " ++ quoteId o.schema.columnNames.expires ++
    " = ? WHERE " ++ quoteId o.schema.columnNames.session_id ++ " = ?"

/-- SQL text built by `length`. -/
def lengthSqlText (o : Options) : String :=
  "SELECT COUNT(*) AS \"length\" FROM " ++ quoteId o.schema.tableName

/-- SQL text built by `clear`. -/
def clearSqlText (o : Options) : String :=
  "DELETE FROM " ++ quoteId o.schema.tableName

/-- SQL text built by `createDatabaseTable`. -/
def createSqlText (o : Options) : String :=
  "CREATE TABLE " ++ quoteId o.schema.tableName ++ " (" ++
    quoteId o.schema.columnNames.session_id ++ " VARCHAR(255) NOT NULL PRIMARY KEY, " ++
    quoteId o.schema.columnNames.expires ++ " BIGINT NOT NULL, " ++
    quoteId o.schema.columnNames.data ++ " VARCHAR(8100))"

/-- SQL text built by `dropDatabaseTable`. -/
def dropSqlText (o : Options) : String :=
  "DROP TABLE " ++ quoteId o.schema.tableName

/-- The database client handle the store holds (`this.client`). -/
structure Client where
  connected : Bool
deriving DecidableEq, Repr

/-- A constructed store: merged options plus the client handle. -/
structure Db2Store where
  options : Options
  client : Client
deriving DecidableEq, Repr

/-- Outcome of one store operation: a synchronously thrown assertion failure
(`assert(store.client.connected)`), an error passed to the callback `fn(err)`,
or a success value passed to the callback. -/
inductive CbResult (α : Type) where
  | assertFailed (msg : String)
  | err (msg : String)
  | ok (a : α)
deriving DecidableEq, Repr

/-- Message of the connection assertion every operation performs. -/
def assertMsg : String := "store.client.connected"

/-- `Db2Store.prototype.get`: select the data column for `sid`; no row yields
a null result, a row is `JSON.parse`d, and a parse failure becomes an error
naming the session id. -/
def Db2Store.get (store : Db2Store) (codec : Codec) (t : Table) (sid : String) :
    CbResult (Option Session) × List Stmt :=
  let sql := getSqlText store.options
  if store.client.connected then
    match findRow t sid with
    | none => (CbResult.ok none, [(sql, [SqlParam.s sid])])
    | some row =>
        match codec.parse row.data with
        | Except.ok s => (CbResult.ok (some s), [(sql, [SqlParam.s sid])])
        | Except.error _ =>
            (CbResult.err ("Failed to parse data for session: " ++ sid), [(sql, [SqlParam.s sid])])
  else (CbResult.assertFailed assertMsg, [])

/-- `Db2Store.prototype.set`: compute the expiry, `JSON.stringify` the session
(reporting a failure to the callback with no SQL run), then count rows for
`sid` and either `UPDATE` (count positive) or `INSERT` (no row). -/
def Db2Store.set (store : Db2Store) (codec : Codec) (dateParse : String → Int) (t : Table)
    (sid : String) (sess : Session) (now : Int) : CbResult Unit × Table × List Stmt :=
  let expires := getExpires dateParse sess now store.options.expiration
  match codec.stringify sess with
  | Except.error e => (CbResult.err e, t, [])
  | Except.ok jsess =>
      if store.client.connected then
        let countStmt : Stmt := (countByIdSqlText store.options, [SqlParam.s sid])
        if countById t sid > 0 then
          (CbResult.ok (), updateRow t sid expires jsess,
            [countStmt,
              (setUpdateSqlText store.options,
                [SqlParam.i expires, SqlParam.s jsess, SqlParam.s sid])])
        else
          (CbResult.ok (), insertRow t sid expires jsess,
            [countStmt,
              (setInsertSqlText store.options,
                [SqlParam.s sid, SqlParam.i expires, SqlParam.s jsess])])
      else (CbResult.assertFailed assertMsg, t, [])

/-- `Db2Store.prototype.destroy`: delete the row with the given id. -/
def Db2Store.destroy (store : Db2Store) (t : Table) (sid : String) :
    CbResult Unit × Table × List Stmt :=
  if store.client.connected then
    (CbResult.ok (), deleteById t sid, [(destroySqlText store.options, [SqlParam.s sid])])
  else (CbResult.assertFailed assertMsg, t, [])

/-- `Db2Store.prototype.touch`: recompute the expiry as in `set` and update
only the expires column for the given id. -/
def Db2Store.touch (store : Db2Store) (dateParse : String → Int) (t : Table) (sid : String)
    (sess : Session) (now : Int) : CbResult Unit × Table × List Stmt :=
  let expires := getExpires dateParse sess now store.options.expiration
  if store.client.connected then
    (CbResult.ok (), updateExpiresCol t sid expires,
      [(touchSqlText store.options, [SqlParam.i expires, SqlParam.s sid])])
  else (CbResult.assertFailed assertMsg, t, [])

/-- `Db2Store.prototype.length`: count all rows. -/
def Db2Store.length (store : Db2Store) (t : Table) : CbResult Nat × List Stmt :=
  if store.client.connected then (CbResult.ok t.length, [(lengthSqlText store.options, [])])
  else (CbResult.assertFailed assertMsg, [])

/-- `Db2Store.prototype.clear`: delete all rows. -/
def Db2Store.clear (store : Db2Store) (t : Table) : CbResult Unit × Table × List Stmt :=
  if store.client.connected then (CbResult.ok (), [], [(clearSqlText store.options, [])])
  else (CbResult.assertFailed assertMsg, t, [])

/-- `Db2Store.prototype.createDatabaseTable`: issue the `CREATE TABLE`. -/
def Db2Store.createDatabaseTable (store : Db2Store) : CbResult Unit × List Stmt :=
  if store.client.connected then (CbResult.ok (), [(createSqlText store.options, [])])
  else (CbResult.assertFailed assertMsg, [])

/-- The error message `dropDatabaseTable` reports when dropping is not
enabled. -/
def dropNotAllowedMsg : String :=
  "Dropping session table not allowed by config. Set allowDrop: true in your config to enable this."

/-- `Db2Store.prototype.dropDatabaseTable`: refuse with a configuration error
unless `allowDrop` is set; otherwise issue the `DROP TABLE`. -/
def Db2Store.dropDatabaseTable (store : Db2Store) : CbResult Unit × List Stmt :=
  if !store.options.allowDrop then (CbResult.err dropNotAllowedMsg, [])
  else if store.client.connected then (CbResult.ok (), [(dropSqlText store.options, [])])
  else (CbResult.assertFailed assertMsg, [])

/-- Outcome of running the `Db2Store` constructor function. -/
inductive ConstructResult where
  | typeError (msg : String)
  | assertClientFailed
  | assertConnectedFailed
  | ok (store : Db2Store)
deriving DecidableEq, Repr

/-- The `Db2Store` constructor.  `calledWithNew` is whether `this` is a fresh
`Db2Store` instance (false for a plain function call, where strict-mode `this`
is undefined); `connection` is the optional supplied connection; `openSync` is
the outcome `ibmdb.openSync(dsn)` would have in the environment.  The two
trailing `assert`s check that a client exists and is connected. -/
def db2StoreCtor (calledWithNew : Bool) (options : UserOptions) (connection : Option Client)
    (openSync : Except String Client) : ConstructResult :=
  if !calledWithNew then
    ConstructResult.typeError "Cannot call Db2Store constructor as a function"
  else
    let opts := mergeOptions options
    let client : Option Client :=
      match connection with
      | some c => some c
      | none =>
          match openSync with
          | Except.ok c => some c
          | Except.error _ => none
    match client with
    | none => ConstructResult.assertClientFailed
    | some c =>
        if c.connected then ConstructResult.ok { options := opts, client := c }
        else ConstructResult.assertConnectedFailed

/-! Table lemmas. -/

theorem findRow_cons_of_pos (p : String × Row) (rest : Table) (sid : String)
    (hp : (p.fst == sid) = true) : findRow (p :: rest) sid = some p.snd := by
  unfold findRow
  rw [@List.find?_cons_of_pos (String × Row) (fun q => q.fst == sid) p rest hp]
  rfl

theorem findRow_cons_of_neg (p : String × Row) (rest : Table) (sid : String)
    (hp : ¬((p.fst == sid) = true)) : findRow (p :: rest) sid = findRow rest sid := by
  unfold findRow
  rw [@List.find?_cons_of_neg (String × Row) (fun q => q.fst == sid) p rest hp]

theorem findRow_eq_none_of_countById_eq_zero (t : Table) (sid : String)
    (h : countById t sid = 0) : findRow t sid = none := by
  induction t with
  | nil => rfl
  | cons p rest ih =>
      by_cases hp : (p.fst == sid) = true
      · exfalso
        simp [countById, List.filter_cons, hp] at h
      · have h2 : countById rest sid = 0 := by
          simpa [countById, List.filter_cons, hp] using h
        simpa [findRow, List.find?_cons, hp] using ih h2

theorem findRow_append_single (t : Table) (sid : String) (r : Row)
    (h : findRow t sid = none) : findRow (t ++ [(sid, r)]) sid = some r := by
  induction t with
  | nil => simp [findRow, List.find?_cons]
  | cons p rest ih =>
      by_cases hp : (p.fst == sid) = true
      · exfalso
        simp [findRow, List.find?_cons, hp] at h
      · have h2 : findRow rest sid = none := by
          simpa [findRow, List.find?_cons, hp] using h
        simpa [findRow, List.find?_cons, hp] using ih h2

theorem findRow_updateRow_of_countById_pos (t : Table) (sid : String) (e : Int) (d : String)
    (h : 0 < countById t sid) :
    findRow (updateRow t sid e d) sid = some { expires := e, data := d } := by
  induction t with
  | nil => simp [countById] at h
  | cons p rest ih =>
      by_cases hp : (p.fst == sid) = true
      · have hu : updateRow (p :: rest) sid e d
            = (p.fst, { expires := e, data := d }) :: updateRow rest sid e d := by
          unfold updateRow
          rw [List.map_cons, if_pos hp]
        rw [hu, findRow_cons_of_pos ((p.fst, { expires := e, data := d })) _ sid hp]
      · have hu : updateRow (p :: rest) sid e d = p :: updateRow rest sid e d := by
          unfold updateRow
          rw [List.map_cons, if_neg hp]
        have h2 : 0 < countById rest sid := by
          have hc : countById (p :: rest) sid = countById rest sid := by
            simp [countById, List.filter_cons, hp]
          rw [hc] at h
          exact h
        rw [hu, findRow_cons_of_neg p _ sid hp]
        exact ih h2

theorem findRow_updateExpiresCol (t : Table) (sid : String) (e : Int) (r : Row)
    (h : findRow t sid = some r) :
    findRow (updateExpiresCol t sid e) sid = some { expires := e, data := r.data } := by
  induction t with
  | nil => simp [findRow] at h
  | cons p rest ih =>
      by_cases hp : (p.fst == sid) = true
      · have hr : p.snd = r := by
          rw [findRow_cons_of_pos p rest sid hp] at h
          simpa using h
        have hu : updateExpiresCol (p :: rest) sid e
            = (p.fst, { expires := e, data := p.snd.data }) :: updateExpiresCol rest sid e := by
          unfold updateExpiresCol
          rw [List.map_cons, if_pos hp]
        rw [hu, findRow_cons_of_pos ((p.fst, { expires := e, data := p.snd.data })) _ sid hp, hr]
      · have hu : updateExpiresCol (p :: rest) sid e = p :: updateExpiresCol rest sid e := by
          unfold updateExpiresCol
          rw [List.map_cons, if_neg hp]
        have h2 : findRow rest sid = some r := by
          rw [findRow_cons_of_neg p rest sid hp] at h
          exact h
        rw [hu, findRow_cons_of_neg p _ sid hp]
        exact ih h2

theorem updateExpiresCol_of_findRow_none (t : Table) (sid : String) (e : Int)
    (h : findRow t sid = none) : updateExpiresCol t sid e = t := by
  induction t with
  | nil => rfl
  | cons p rest ih =>
      by_cases hp : (p.fst == sid) = true
      · exfalso
        rw [findRow_cons_of_pos p rest sid hp] at h
        simp at h
      · have h2 : findRow rest sid = none := by
          rw [findRow_cons_of_neg p rest sid hp] at h
          exact h
        have hu : updateExpiresCol (p :: rest) sid e = p :: updateExpiresCol rest sid e := by
          unfold updateExpiresCol
          rw [List.map_cons, if_neg hp]
        rw [hu, ih h2]

/-- The row a successful `set` leaves under `sid`: in both the update and the
insert branch it carries the computed expiry and the serialized session. -/
theorem findRow_after_set (store : Db2Store) (codec : Codec) (dateParse : String → Int)
    (t : Table) (sid : String) (sess : Session) (now : Int) (jsess : String)
    (hconn : store.client.connected = true)
    (hser : codec.stringify sess = Except.ok jsess) :
    findRow (store.set codec dateParse t sid sess now).2.1 sid =
      some { expires := getExpires dateParse sess now store.options.expiration, data := jsess } := by
  unfold Db2Store.set
  rw [hser]
  simp only [hconn, if_true]
  by_cases hc : countById t sid > 0
  · simp only [hc, if_true]
    exact findRow_updateRow_of_countById_pos t sid _ jsess hc
  · simp only [hc, if_false]
    apply findRow_append_single
    exact findRow_eq_none_of_countById_eq_zero t sid (Nat.eq_zero_of_not_pos hc)

/-! Concrete fixtures used by the closed evaluation theorems. -/

/-- A fixed string-to-date parser for closed evaluations. -/
def dp0 : String → Int := fun _ => 0

/-- A store over the default options with a live connection. -/
def store0 : Db2Store := { options := defaultOptions, client := { connected := true } }

/-- A store over the default options whose connection is down. -/
def storeOff : Db2Store := { options := defaultOptions, client := { connected := false } }

/-- A cookieless session with a small payload. -/
def sess0 : Session := { cookie := none, payload := [("user", "alice")] }

/-- A session whose cookie carries a `Date`-valued expiry. -/
def sess1 : Session :=
  { cookie := some { expires := some (ExpVal.date 1700000000000), _expires := none }
  , payload := [] }

/-- A JSON codec that round-trips `sess0`, serializes `sess1`, and rejects
unknown serialized text. -/
def codec0 : Codec :=
  { stringify := fun s =>
      if s = sess0 then Except.ok "J0"
      else if s = sess1 then Except.ok "J1"
      else Except.error "unsupported"
  , parse := fun d => if d = "J0" then Except.ok sess0 else Except.error "Unexpected token" }

/-- A JSON codec whose stringify always throws (e.g. a circular session). -/
def codecFail : Codec :=
  { stringify := fun _ => Except.error "TypeError: Converting circular structure to JSON"
  , parse := fun _ => Except.error "Unexpected token" }

/-- A JSON codec that serializes everything to a fixed string. -/
def codecConst : Codec :=
  { stringify := fun _ => Except.ok "JF"
  , parse := fun _ => Except.error "Unexpected token" }

/-! Claim theorems. -/

/-- C1: for every store with a live connection, model of the JSON global,
session `s` the codec serializes and round-trips (the claim's "valid,
JSON-serializable session object"), table and id, `set(id, s)` followed by
`get(id)` returns a session deep-equal to `s`. -/
theorem set_then_get_returns_session (store : Db2Store) (codec : Codec)
    (dateParse : String → Int) (t : Table) (sid : String) (s : Session) (now : Int)
    (jsess : String)
    (hconn : store.client.connected = true)
    (hser : codec.stringify s = Except.ok jsess)
    (hdeser : codec.parse jsess = Except.ok s) :
    (store.get codec (store.set codec dateParse t sid s now).2.1 sid).1 =
      CbResult.ok (some s) := by
  have hrow := findRow_after_set store codec dateParse t sid s now jsess hconn hser
  unfold Db2Store.get
  simp only [hconn, if_true, hrow, hdeser]

/-- Witness for C1 at a concrete store, codec, session and id. -/
theorem set_then_get_returns_session_witness :
    (store0.get codec0 (store0.set codec0 dp0 [] "sid1" sess0 1000000000).2.1 "sid1").1 =
      CbResult.ok (some sess0) :=
  set_then_get_returns_session store0 codec0 dp0 [] "sid1" sess0 1000000000 "J0" rfl rfl rfl

/-- C3: with a live connection, `get` on an id with no row returns a null
result and no error, while a row whose data fails to parse yields an error
message naming the offending session id — an outcome distinct from the
not-found result. -/
theorem get_not_found_vs_parse_error (store : Db2Store) (codec : Codec) (t : Table)
    (sid : String) (hconn : store.client.connected = true) :
    (findRow t sid = none → (store.get codec t sid).1 = CbResult.ok none) ∧
      (∀ row msg, findRow t sid = some row → codec.parse row.data = Except.error msg →
        (store.get codec t sid).1 =
            CbResult.err ("Failed to parse data for session: " ++ sid) ∧
          CbResult.err ("Failed to parse data for session: " ++ sid) ≠
            (CbResult.ok none : CbResult (Option Session))) := by
  constructor
  · intro hmiss
    unfold Db2Store.get
    simp only [hconn, if_true, hmiss]
  · intro row msg hrow hparse
    constructor
    · unfold Db2Store.get
      simp only [hconn, if_true, hrow, hparse]
    · intro hcontra
      exact CbResult.noConfusion hcontra

/-- Witness for C3: an empty table yields a null result, and a table holding
unparseable data yields the error naming the id. -/
theorem get_not_found_vs_parse_error_witness :
    ((store0.get codec0 [] "missing").1 = CbResult.ok none) ∧
      ((store0.get codec0 [("sid4", { expires := 1, data := "garbage" })] "sid4").1 =
        CbResult.err ("Failed to parse data for session: " ++ "sid4")) := by
  constructor
  · exact (get_not_found_vs_parse_error store0 codec0 [] "missing" rfl).1 rfl
  · exact ((get_not_found_vs_parse_error store0 codec0
      [("sid4", { expires := 1, data := "garbage" })] "sid4" rfl).2
      { expires := 1, data := "garbage" } "Unexpected token" rfl rfl).1

/-- C4: when serialization of the session fails, `set` reports the error to
the continuation at once, issues no SQL statement, and leaves the table
unchanged. -/
theorem set_serialization_failure (store : Db2Store) (codec : Codec)
    (dateParse : String → Int) (t : Table) (sid : String) (sess : Session) (now : Int)
    (e : String) (hser : codec.stringify sess = Except.error e) :
    store.set codec dateParse t sid sess now = (CbResult.err e, t, []) := by
  unfold Db2Store.set
  rw [hser]

/-- Witness for C4 with a codec whose stringify always throws. -/
theorem set_serialization_failure_witness :
    store0.set codecFail dp0 [] "sid1" sess0 1000 =
      (CbResult.err "TypeError: Converting circular structure to JSON", [], []) :=
  set_serialization_failure store0 codecFail dp0 [] "sid1" sess0 1000
    "TypeError: Converting circular structure to JSON" rfl

/-- C10: calling the `Db2Store` constructor as a plain function (so `this` is
not an instance) throws the TypeError; the outcome is the same for every
options object, supplied connection, and connection-opening environment, so no
configuration is read and no connection is opened first. -/
theorem ctor_without_new_throws (u : UserOptions) (conn : Option Client)
    (openSync : Except String Client) :
    db2StoreCtor false u conn openSync =
      ConstructResult.typeError "Cannot call Db2Store constructor as a function" := rfl

/-- The expiry rule, stated in the words of the (amended) specification: the
session's cookie `expires` field when present and truthy, else the cookie's
`_expires` field when present and truthy, else `now` plus the configured
expiration; in every case the millisecond timestamp rounded to whole seconds.
This is the spec-side formula to be compared against the stored value the
source-side operations produce. -/
def expiresSpec (dateParse : String → Int) (sess : Session) (now expiration : Int) : Int :=
  match sess.cookie with
  | some c =>
      if optTruthy c.expires then
        mathRoundDiv1000 (ExpVal.toMillis dateParse (c.expires.getD ExpVal.jsNull))
      else if optTruthy c._expires then
        mathRoundDiv1000 (ExpVal.toMillis dateParse (c._expires.getD ExpVal.jsNull))
      else mathRoundDiv1000 (now + expiration)
  | none => mathRoundDiv1000 (now + expiration)

theorem getExpires_eq_expiresSpec (dateParse : String → Int) (sess : Session)
    (now expiration : Int) :
    getExpires dateParse sess now expiration = expiresSpec dateParse sess now expiration := by
  unfold getExpires expiresSpec
  cases hck : sess.cookie with
  | none => rfl
  | some c =>
      cases hv : c.expires with
      | some v =>
          by_cases htv : v.truthy = true
          · simp [optTruthy, hv, htv]
          · cases hw : c._expires with
            | some w =>
                by_cases htw : w.truthy = true
                · simp [optTruthy, hv, hw, htv, htw]
                · simp [optTruthy, hv, hw, htv, htw]
            | none => simp [optTruthy, hv, hw, htv]
      | none =>
          cases hw : c._expires with
          | some w =>
              by_cases htw : w.truthy = true
              · simp [optTruthy, hv, hw, htw]
              · simp [optTruthy, hv, hw, htw]
          | none => simp [optTruthy, hv, hw]

/-- A session whose `cookie.expires` is present but falsy (numeric 0) and
whose `cookie._expires` is a truthy number. -/
def sessFalsyZero : Session :=
  { cookie := some { expires := some (ExpVal.num 0), _expires := some (ExpVal.num 5000000) }
  , payload := [] }

/-- C2 (amended): the expiry stored by `set`, and written by `touch` for an
existing row, follows the rule: `cookie.expires` when present and truthy, else
`cookie._expires` when present and truthy, else now plus the configured
expiration, always rounded from milliseconds to whole seconds; in particular a
`Date`-valued `cookie.expires` with timestamp `T` is stored as exactly
`Math.round(T / 1000)`. -/
theorem stored_expires_formula (store : Db2Store) (codec : Codec) (dateParse : String → Int)
    (t : Table) (sid : String) (sess : Session) (now : Int) (jsess : String)
    (hconn : store.client.connected = true)
    (hser : codec.stringify sess = Except.ok jsess) :
    ((findRow (store.set codec dateParse t sid sess now).2.1 sid).map Row.expires =
        some (expiresSpec dateParse sess now store.options.expiration)) ∧
      (∀ r, findRow t sid = some r →
        (findRow (store.touch dateParse t sid sess now).2.1 sid).map Row.expires =
          some (expiresSpec dateParse sess now store.options.expiration)) ∧
      (∀ T c, sess.cookie = some c → c.expires = some (ExpVal.date T) →
        (findRow (store.set codec dateParse t sid sess now).2.1 sid).map Row.expires =
          some (mathRoundDiv1000 T)) := by
  have hrow := findRow_after_set store codec dateParse t sid sess now jsess hconn hser
  have hspec := getExpires_eq_expiresSpec dateParse sess now store.options.expiration
  refine ⟨?_, ?_, ?_⟩
  · rw [hrow, hspec]
    rfl
  · intro r hr
    unfold Db2Store.touch
    simp only [hconn, if_true]
    rw [findRow_updateExpiresCol t sid _ r hr, hspec]
    rfl
  · intro T c hck hexp
    have hval : getExpires dateParse sess now store.options.expiration = mathRoundDiv1000 T := by
      unfold getExpires
      rw [hck]
      simp [optTruthy, hexp, ExpVal.truthy, ExpVal.toMillis]
    rw [hrow, hval]
    rfl

/-- Witness for C2 at a concrete session carrying a `Date` expiry: the first
two parts instantiate the set and touch clauses, the third the exact
`round(T / 1000)` clause. -/
theorem stored_expires_formula_witness :
    ((findRow (store0.set codec0 dp0 [] "sid2" sess1 1000000000).2.1 "sid2").map Row.expires =
        some (expiresSpec dp0 sess1 1000000000 store0.options.expiration)) ∧
      ((findRow (store0.touch dp0 [("sid3", { expires := 7, data := "J0" })] "sid3" sess1
            1000000000).2.1 "sid3").map Row.expires =
        some (expiresSpec dp0 sess1 1000000000 store0.options.expiration)) ∧
      ((findRow (store0.set codec0 dp0 [] "sid2" sess1 1000000000).2.1 "sid2").map Row.expires =
        some (mathRoundDiv1000 1700000000000)) := by
  have h1 := stored_expires_formula store0 codec0 dp0 [] "sid2" sess1 1000000000 "J1" rfl rfl
  have h2 := stored_expires_formula store0 codec0 dp0
    [("sid3", { expires := 7, data := "J0" })] "sid3" sess1 1000000000 "J1" rfl rfl
  exact ⟨h1.1, h2.2.1 { expires := 7, data := "J0" } rfl,
    h1.2.2 1700000000000 { expires := some (ExpVal.date 1700000000000), _expires := none } rfl rfl⟩

/-- C2 counterexample: for a session whose `cookie.expires` is present but
falsy (numeric 0), the claim's "if present" rule predicts the stored expiry
`Math.round(0 / 1000) = 0`, but the code skips the falsy field, uses the
truthy `_expires` hint of 5000000 ms, and stores 5000. -/
theorem stored_expires_present_counterexample :
    ((findRow (store0.set codecConst dp0 [] "sid1" sessFalsyZero 1000000000).2.1 "sid1").map
        Row.expires = some 5000) ∧
      ¬((findRow (store0.set codecConst dp0 [] "sid1" sessFalsyZero 1000000000).2.1 "sid1").map
          Row.expires = some (mathRoundDiv1000 (ExpVal.toMillis dp0 (ExpVal.num 0)))) := by
  constructor
  · rfl
  · intro h
    rw [show (findRow (store0.set codecConst dp0 [] "sid1" sessFalsyZero 1000000000).2.1
        "sid1").map Row.expires = some 5000 from rfl] at h
    simp [mathRoundDiv1000, ExpVal.toMillis] at h

/-- C5: after `set(id, s)` then `touch(id, s2)`, the data column is untouched —
`get(id)` still returns `s` — while the stored expires column equals the
expiry computed from `s2`. -/
theorem touch_updates_only_expires (store : Db2Store) (codec : Codec)
    (dateParse : String → Int) (t : Table) (sid : String) (s s2 : Session)
    (now now2 : Int) (jsess : String)
    (hconn : store.client.connected = true)
    (hser : codec.stringify s = Except.ok jsess)
    (hdeser : codec.parse jsess = Except.ok s) :
    ((store.get codec
        (store.touch dateParse (store.set codec dateParse t sid s now).2.1 sid s2 now2).2.1
        sid).1 = CbResult.ok (some s)) ∧
      ((findRow
          (store.touch dateParse (store.set codec dateParse t sid s now).2.1 sid s2 now2).2.1
          sid).map Row.expires =
        some (getExpires dateParse s2 now2 store.options.expiration)) := by
  have hrow := findRow_after_set store codec dateParse t sid s now jsess hconn hser
  have htouch : findRow
      (store.touch dateParse (store.set codec dateParse t sid s now).2.1 sid s2 now2).2.1 sid =
      some { expires := getExpires dateParse s2 now2 store.options.expiration, data := jsess } := by
    unfold Db2Store.touch
    simp only [hconn, if_true]
    exact findRow_updateExpiresCol _ sid _ _ hrow
  constructor
  · unfold Db2Store.get
    simp only [hconn, if_true, htouch, hdeser]
  · rw [htouch]
    rfl

/-- Witness for C5: set `sess0`, touch with `sess1`, read back. -/
theorem touch_updates_only_expires_witness :
    ((store0.get codec0
        (store0.touch dp0 (store0.set codec0 dp0 [] "sid1" sess0 1000000000).2.1 "sid1" sess1
          2000000000).2.1 "sid1").1 = CbResult.ok (some sess0)) ∧
      ((findRow
          (store0.touch dp0 (store0.set codec0 dp0 [] "sid1" sess0 1000000000).2.1 "sid1" sess1
            2000000000).2.1 "sid1").map Row.expires =
        some (getExpires dp0 sess1 2000000000 store0.options.expiration)) :=
  touch_updates_only_expires store0 codec0 dp0 [] "sid1" sess0 sess1 1000000000 2000000000
    "J0" rfl rfl rfl

/-- C6: touching an id with no row succeeds with no error, creates no row —
the table is unchanged — and the row count reported by `length` is unchanged;
the only SQL issued is the expires UPDATE. -/
theorem touch_missing_id_noop (store : Db2Store) (dateParse : String → Int) (t : Table)
    (sid : String) (sess : Session) (now : Int)
    (hconn : store.client.connected = true) (hmiss : findRow t sid = none) :
    (store.touch dateParse t sid sess now =
        (CbResult.ok (), t,
          [(touchSqlText store.options,
            [SqlParam.i (getExpires dateParse sess now store.options.expiration),
              SqlParam.s sid])])) ∧
      ((store.length (store.touch dateParse t sid sess now).2.1).1 = (store.length t).1) := by
  have hnoop : store.touch dateParse t sid sess now =
      (CbResult.ok (), t,
        [(touchSqlText store.options,
          [SqlParam.i (getExpires dateParse sess now store.options.expiration),
            SqlParam.s sid])]) := by
    unfold Db2Store.touch
    simp only [hconn, if_true]
    rw [updateExpiresCol_of_findRow_none t sid _ hmiss]
  exact ⟨hnoop, by rw [hnoop]⟩

/-- Witness for C6 at a nonempty table without the touched id. -/
theorem touch_missing_id_noop_witness :
    (store0.touch dp0 [("other", { expires := 9, data := "J0" })] "ghost" sess0 1000000000 =
        (CbResult.ok (), [("other", { expires := 9, data := "J0" })],
          [(touchSqlText store0.options,
            [SqlParam.i (getExpires dp0 sess0 1000000000 store0.options.expiration),
              SqlParam.s "ghost"])])) ∧
      ((store0.length
          (store0.touch dp0 [("other", { expires := 9, data := "J0" })] "ghost" sess0
            1000000000).2.1).1 =
        (store0.length [("other", { expires := 9, data := "J0" })]).1) :=
  touch_missing_id_noop store0 dp0 [("other", { expires := 9, data := "J0" })] "ghost" sess0
    1000000000 rfl rfl

/-- C7: `dropDatabaseTable` refuses with the configuration error and issues no
SQL whenever the configuration did not explicitly enable `allowDrop`; with
`allowDrop: true` in the configuration (and the asserted live connection) it
issues exactly the DROP TABLE statement. -/
theorem dropDatabaseTable_allowDrop_gate (u : UserOptions) (c : Client) :
    (u.allowDrop ≠ some true →
        Db2Store.dropDatabaseTable { options := mergeOptions u, client := c } =
          (CbResult.err dropNotAllowedMsg, [])) ∧
      (u.allowDrop = some true → c.connected = true →
        Db2Store.dropDatabaseTable { options := mergeOptions u, client := c } =
          (CbResult.ok (), [(dropSqlText (mergeOptions u), [])])) := by
  constructor
  · intro hne
    have hfalse : (mergeOptions u).allowDrop = false := by
      unfold mergeOptions
      cases hu : u.allowDrop with
      | none => rfl
      | some b =>
          cases b with
          | false => rfl
          | true => exact absurd hu hne
    unfold Db2Store.dropDatabaseTable
    simp [hfalse]
  · intro htrue hconn
    have htrue2 : (mergeOptions u).allowDrop = true := by
      unfold mergeOptions
      rw [htrue]
      rfl
    unfold Db2Store.dropDatabaseTable
    simp [htrue2, hconn]

/-- Witness for C7: default options refuse; options with `allowDrop: true`
issue the DROP TABLE. -/
theorem dropDatabaseTable_allowDrop_gate_witness :
    (Db2Store.dropDatabaseTable
        { options := mergeOptions {}, client := { connected := true } } =
      (CbResult.err dropNotAllowedMsg, [])) ∧
      (Db2Store.dropDatabaseTable
          { options := mergeOptions { allowDrop := some true }
          , client := { connected := true } } =
        (CbResult.ok (), [(dropSqlText (mergeOptions { allowDrop := some true }), [])])) := by
  constructor
  · exact (dropDatabaseTable_allowDrop_gate {} { connected := true }).1 (by decide)
  · exact (dropDatabaseTable_allowDrop_gate { allowDrop := some true }
      { connected := true }).2 rfl rfl

/-- C8: a successful construction always yields a connected client — an
absent handle (open failed) or a disconnected one trips the constructor's
asserts — and with a dead connection every operation (get, set, destroy,
touch, length, clear, createDatabaseTable, dropDatabaseTable) stops on its
connection assertion before issuing any SQL: each issues the empty trace, is
an assertion failure on the paths that reach the assert, and set's
serialization early-return is the only outcome that precedes it. -/
theorem connection_is_precondition (u : UserOptions) (openSync : Except String Client)
    (store : Db2Store) (codec : Codec) (dateParse : String → Int) (t : Table)
    (sid : String) (sess : Session) (now : Int)
    (hoff : store.client.connected = false) :
    (∀ conn st, db2StoreCtor true u conn openSync = ConstructResult.ok st →
        st.client.connected = true) ∧
      (∀ msg, db2StoreCtor true u none (Except.error msg) =
        ConstructResult.assertClientFailed) ∧
      (∀ c : Client, c.connected = false →
        db2StoreCtor true u (some c) openSync = ConstructResult.assertConnectedFailed) ∧
      (store.get codec t sid = (CbResult.assertFailed assertMsg, [])) ∧
      ((store.set codec dateParse t sid sess now).2.2 = []) ∧
      (∀ jsess, codec.stringify sess = Except.ok jsess →
        store.set codec dateParse t sid sess now = (CbResult.assertFailed assertMsg, t, [])) ∧
      (store.destroy t sid = (CbResult.assertFailed assertMsg, t, [])) ∧
      (store.touch dateParse t sid sess now = (CbResult.assertFailed assertMsg, t, [])) ∧
      (store.length t = (CbResult.assertFailed assertMsg, [])) ∧
      (store.clear t = (CbResult.assertFailed assertMsg, t, [])) ∧
      (store.createDatabaseTable = (CbResult.assertFailed assertMsg, [])) ∧
      (store.dropDatabaseTable.2 = [] ∧
        (store.options.allowDrop = true →
          store.dropDatabaseTable = (CbResult.assertFailed assertMsg, []))) := by
  refine ⟨?_, ?_, ?_, ?_, ?_, ?_, ?_, ?_, ?_, ?_, ?_, ?_, ?_⟩
  · intro conn st h
    cases conn with
    | some c =>
        by_cases hc : c.connected = true
        · simp only [db2StoreCtor, Bool.not_true, if_false, hc, if_true] at h
          cases h
          exact hc
        · simp only [db2StoreCtor, Bool.not_true, if_false] at h
          rw [if_neg hc] at h
          exact ConstructResult.noConfusion h
    | none =>
        cases openSync with
        | ok c =>
            by_cases hc : c.connected = true
            · simp only [db2StoreCtor, Bool.not_true, if_false, hc, if_true] at h
              cases h
              exact hc
            · simp only [db2StoreCtor, Bool.not_true, if_false] at h
              rw [if_neg hc] at h
              exact ConstructResult.noConfusion h
        | error e => exact ConstructResult.noConfusion h
  · intro msg
    rfl
  · intro c hc
    simp [db2StoreCtor, hc]
  · unfold Db2Store.get
    rw [hoff]
    rfl
  · unfold Db2Store.set
    cases codec.stringify sess with
    | error e => rfl
    | ok jsess =>
        rw [hoff]
        rfl
  · intro jsess hser
    unfold Db2Store.set
    rw [hser, hoff]
    rfl
  · unfold Db2Store.destroy
    rw [hoff]
    rfl
  · unfold Db2Store.touch
    rw [hoff]
    rfl
  · unfold Db2Store.length
    rw [hoff]
    rfl
  · unfold Db2Store.clear
    rw [hoff]
    rfl
  · unfold Db2Store.createDatabaseTable
    rw [hoff]
    rfl
  · unfold Db2Store.dropDatabaseTable
    cases hd : store.options.allowDrop with
    | false => rfl
    | true =>
        rw [hoff]
        rfl
  · intro hd
    unfold Db2Store.dropDatabaseTable
    rw [hd, hoff]
    rfl

/-- Witness for C8: the constructor fails when opening the connection failed,
and a disconnected store's get, touch and drop issue nothing. -/
theorem connection_is_precondition_witness :
    (db2StoreCtor true {} none (Except.error "open failed") =
        ConstructResult.assertClientFailed) ∧
      (storeOff.get codec0 [] "sid1" = (CbResult.assertFailed assertMsg, [])) ∧
      (storeOff.touch dp0 [] "sid1" sess0 1000 = (CbResult.assertFailed assertMsg, [], [])) ∧
      (storeOff.set codec0 dp0 [] "sid1" sess0 1000).2.2 = [] := by
  have h := connection_is_precondition {} (Except.error "open failed") storeOff codec0 dp0 []
    "sid1" sess0 1000 rfl
  exact ⟨h.2.1 "open failed", h.2.2.2.1, h.2.2.2.2.2.2.2.1, h.2.2.2.2.1⟩

/-- A session whose cookie expiry is a `Date` object at the epoch. -/
def sessEpochDate : Session :=
  { cookie := some { expires := some (ExpVal.date 0), _expires := none }, payload := [] }

/-- C9 (amended): every present-but-falsy cookie expiry field (numeric 0,
empty string, null, or absent) is skipped by the expiry computation used by
`set` and `touch`, which then falls back to now plus the configured
expiration; however, a `Date` object at the epoch is truthy, so an explicit
epoch expiry (stored value 0) can still arise from `cookie.expires`. -/
theorem falsy_expiry_falls_back (dateParse : String → Int) (c : Cookie)
    (payload : List (String × String)) (now expiration : Int)
    (h1 : optTruthy c.expires = false) (h2 : optTruthy c._expires = false) :
    (getExpires dateParse { cookie := some c, payload := payload } now expiration =
        mathRoundDiv1000 (now + expiration)) ∧
      (getExpires dateParse
          { cookie := some { expires := some (ExpVal.date 0), _expires := none }
          , payload := payload } now expiration = 0) := by
  constructor
  · unfold getExpires
    simp [h1, h2]
  · rfl

/-- Witness for C9 at falsy numeric-zero and empty-string expiry fields. -/
theorem falsy_expiry_falls_back_witness :
    (getExpires dp0
        { cookie := some { expires := some (ExpVal.num 0), _expires := some (ExpVal.str "") }
        , payload := [] } 1000 2000 = mathRoundDiv1000 (1000 + 2000)) ∧
      (getExpires dp0
          { cookie := some { expires := some (ExpVal.date 0), _expires := none }
          , payload := [] } 1000 2000 = 0) :=
  falsy_expiry_falls_back dp0
    { expires := some (ExpVal.num 0), _expires := some (ExpVal.str "") } [] 1000 2000 rfl rfl

/-- C9 counterexample: `set` on a session whose `cookie.expires` is a `Date`
at the epoch stores the explicit epoch expiry 0 — not the fallback of now plus
the configured expiration — so an explicit epoch expiry can be stored. -/
theorem epoch_expiry_stored_counterexample :
    ((findRow (store0.set codecConst dp0 [] "sid1" sessEpochDate 1000000000).2.1 "sid1").map
        Row.expires = some 0) ∧
      ¬((0 : Int) = mathRoundDiv1000 ((1000000000 : Int) + defaultOptions.expiration)) := by
  constructor
  · rfl
  · decide
